import Mathlib

/-! Shallow embedding of the core of `src/backend/main.py` (demo-uppy FastAPI
backend): password utilities, JWT issue/verify, the login and set-password
handlers, the admin gate and the upload handler, together with the database
tables they touch (users, uploaded_files, activity_logs) and the upload
directory on disk.  Handlers are embedded as pure functions from an explicit
application state to a pair of (new state, HTTP result); `raise HTTPException`
becomes an `Except.error` carrying the status code and detail string.
Wall-clock time and the generated uuid are passed in as explicit parameters.
-/

deriving instance DecidableEq for Except

namespace DemoUppy

/-- Model of `fastapi.HTTPException`: an HTTP status code plus a detail message. -/
structure HTTPException where
  status : Nat
  detail : String
deriving Repr, DecidableEq

/-- Deployment configuration read from environment variables in `main.py`:
`SECRET_KEY`, `ACCESS_TOKEN_EXPIRE_MINUTES` and `UPLOAD_DIR`. -/
structure Config where
  secret : String
  expire_minutes : Nat
  upload_dir : String
deriving Repr, DecidableEq

/-- Row of the `users` table (class `User` in `main.py`).  Timestamps are
modelled as `Nat`; `last_login` is nullable. -/
structure User where
  email : String
  name : String
  password_hash : String
  role : String
  is_active : Bool
  is_first_login : Bool
  storage_account : String
  container : String
  last_login : Option Nat
deriving Repr, DecidableEq

/-- Row of the `uploaded_files` table (class `UploadedFile` in `main.py`). -/
structure UploadedFileRow where
  id : String
  filename : String
  original_filename : String
  file_size : Nat
  content_type : String
  file_path : String
  user_email : String
  uploaded_at : Nat
  status : String
deriving Repr, DecidableEq

/-- Row of the `activity_logs` table (class `ActivityLog` in `main.py`). -/
structure ActivityLogRow where
  user_email : String
  action : String
  details : Option String
  status : String
  created_at : Nat
deriving Repr, DecidableEq

/-- A file written under `UPLOAD_DIR`. -/
structure DiskFile where
  path : String
  content : List UInt8
deriving Repr, DecidableEq

/-- The mutable state the core handlers read and write: the three database
tables plus the upload directory. -/
structure AppState where
  users : List User
  uploaded_files : List UploadedFileRow
  activity_logs : List ActivityLogRow
  disk : List DiskFile
deriving Repr, DecidableEq

/-- Source `hash_password` (`bcrypt.hashpw`): modelled as a tagged injection so that
hashing is one-way only up to the model and `verify_password p (hash_password p)`
holds, matching the bcrypt hash/check contract used by the code. -/
def hash_password (password : String) : String :=
  "bcrypt$" ++ password

/-- Source `verify_password` (`bcrypt.checkpw`). -/
def verify_password (password : String) (hashed : String) : Bool :=
  hash_password password == hashed

/-- The claim set of a JWT: `payload.get("sub")` may be absent, `exp` is the
expiry timestamp added by `create_access_token`. -/
structure JwtClaims where
  sub : Option String
  exp : Nat
deriving Repr, DecidableEq

/-- A bearer token as presented to `jose.jwt.decode`: either garbage, or a
claim set signed with some key. -/
inductive Jwt where
  | malformed
  | signed (claims : JwtClaims) (key : String)
deriving Repr, DecidableEq

/-- Model of `jose.jwt.decode` with the configured secret and algorithm: returns the
claims when the signature matches the secret and the token is unexpired,
raises `JWTError` (here `none`) otherwise. -/
def jwtDecode (secret : String) (now : Nat) : Jwt → Option JwtClaims
  | .malformed => none
  | .signed claims key =>
    if key == secret && decide (now ≤ claims.exp) then some claims else none

/-- Source `create_access_token`: signs a claim set holding the subject with the
configured secret and an expiry a fixed window after now. -/
def create_access_token (cfg : Config) (now : Nat) (email : String) : Jwt :=
  .signed { sub := some email, exp := now + cfg.expire_minutes } cfg.secret

/-- Source `verify_token`: decode the bearer token, fail 401 on `JWTError` or on a
missing `sub` claim, otherwise return the subject email. -/
def verify_token (cfg : Config) (now : Nat) (tok : Jwt) : Except HTTPException String :=
  match jwtDecode cfg.secret now tok with
  | none => .error ⟨401, "Invalid token"⟩
  | some payload =>
    match payload.sub with
    | none => .error ⟨401, "Invalid token"⟩
    | some email => .ok email

/-- Lookup by email, as in `db.query(User).filter(User.email == email).first()`. -/
def findUser : List User → String → Option User
  | [], _ => none
  | u :: rest, email => if u.email == email then some u else findUser rest email

/-- Source `verify_admin_token`: compose `verify_token` with a fresh role lookup in
the users table; 403 unless the subject currently exists with role admin. -/
def verify_admin_token (cfg : Config) (now : Nat) (tok : Jwt) (st : AppState) :
    Except HTTPException String :=
  match verify_token cfg now tok with
  | .error e => .error e
  | .ok email =>
    match findUser st.users email with
    | none => .error ⟨403, "Admin access required"⟩
    | some user =>
      if user.role == "admin" then .ok email else .error ⟨403, "Admin access required"⟩

/-- Source `log_activity`: append one row to `activity_logs` and commit. -/
def log_activity (st : AppState) (now : Nat) (user_email action status : String)
    (details : Option String) : AppState :=
  { st with activity_logs :=
      st.activity_logs ++ [⟨user_email, action, details, status, now⟩] }

/-- Mutating the ORM object returned by a `.first()` query then committing:
replace the first user whose email matches. -/
def updateFirst : List User → String → (User → User) → List User
  | [], _, _ => []
  | u :: rest, email, f =>
    if u.email == email then f u :: rest else u :: updateFirst rest email f

/-- Request body of `POST /api/auth/login`. -/
structure UserLogin where
  email : String
  password : String
deriving Repr, DecidableEq

/-- Response body of `POST /api/auth/login` and `POST /api/auth/set-password`
(Pydantic `Token` with the nested `user` dict).  The first-login branch of
`login` returns the literal empty string as `access_token`; that absent token
is modelled as `none`. -/
structure UserOut where
  email : String
  name : String
  role : String
  needs_password_setup : Bool
deriving Repr, DecidableEq

structure TokenResponse where
  access_token : Option Jwt
  token_type : String
  user : UserOut
deriving Repr, DecidableEq

/-- Handler of `POST /api/auth/login` (`login` in `main.py`). -/
def login (cfg : Config) (now : Nat) (req : UserLogin) (st : AppState) :
    AppState × Except HTTPException TokenResponse :=
  match findUser st.users req.email with
  | none => (st, .error ⟨401, "Invalid email or password"⟩)
  | some user =>
    if !user.is_active then
      (log_activity st now user.email "Login failed" "error" (some "Account is inactive"),
       .error ⟨401, "Account is inactive. Please contact an administrator."⟩)
    else if user.is_first_login then
      if !verify_password req.password user.password_hash then
        (st, .error ⟨401, "Invalid email or password"⟩)
      else
        (st, .ok { access_token := none, token_type := "bearer",
                   user := ⟨user.email, user.name, user.role, true⟩ })
    else if !verify_password req.password user.password_hash then
      (log_activity st now user.email "Login failed" "error" (some "Invalid password"),
       .error ⟨401, "Invalid email or password"⟩)
    else
      let st1 := { st with
        users := updateFirst st.users req.email (fun u => { u with last_login := some now }) }
      let st2 := log_activity st1 now user.email "Login successful" "success" none
      (st2, .ok { access_token := some (create_access_token cfg now user.email),
                  token_type := "bearer",
                  user := ⟨user.email, user.name, user.role, false⟩ })

/-- Request body of `POST /api/auth/set-password`. -/
structure UserSetPassword where
  email : String
  new_password : String
deriving Repr, DecidableEq

/-- Handler of `POST /api/auth/set-password` (`set_password` in `main.py`). -/
def set_password (cfg : Config) (now : Nat) (req : UserSetPassword) (st : AppState) :
    AppState × Except HTTPException TokenResponse :=
  match findUser st.users req.email with
  | none => (st, .error ⟨404, "User not found"⟩)
  | some user =>
    let st1 := { st with
      users := updateFirst st.users req.email (fun u =>
        { u with password_hash := hash_password req.new_password,
                 is_first_login := false,
                 last_login := some now }) }
    let st2 := log_activity st1 now user.email "Password changed" "info" none
    (st2, .ok { access_token := some (create_access_token cfg now user.email),
                token_type := "bearer",
                user := ⟨user.email, user.name, user.role, false⟩ })

/-- The content-type allow-list of `upload_file` (`allowed_types`). -/
def allowed_types : List String :=
  ["text/csv", "application/json", "text/plain", "application/vnd.ms-excel",
   "application/vnd.openxmlformats-officedocument.spreadsheetml.sheet",
   "application/xml", "text/xml"]

/-- The extension allow-list of `upload_file`. -/
def allowed_extensions : List String :=
  [".csv", ".json", ".txt", ".xlsx", ".xls", ".xml"]

/-- Python `str.lower()`, modelled on the character list of the string.  Only the
ASCII range matters here: the extensions compared against are ASCII. -/
def lowerChars (cs : List Char) : List Char := cs.map Char.toLower

/-- The extension signal: `any(file.filename.lower().endswith(ext) for ext in [...])`. -/
def extension_ok (filename : String) : Bool :=
  allowed_extensions.any (fun ext => ext.data.isSuffixOf (lowerChars filename.data))

/-- The type check of `upload_file`: accepted when the declared content type
is allow-listed OR the lowercased filename carries an allowed extension. -/
def type_ok (content_type filename : String) : Bool :=
  allowed_types.contains content_type || extension_ok filename

/-- The upload size ceiling in bytes, `100 * 1024 * 1024` in the handler. -/
def MAX_UPLOAD_BYTES : Nat := 100 * 1024 * 1024

/-- Index of the last occurrence of a character in a list. -/
def rfindIdx (c : Char) (cs : List Char) : Option Nat :=
  ((List.range cs.length).filter (fun i => cs.getD i ' ' == c)).getLast?

/-- The final path component: the characters after the last slash. -/
def lastComponent (cs : List Char) : List Char :=
  (cs.reverse.takeWhile (fun ch => ch != '/')).reverse

/-- Python `pathlib.Path(name).suffix`: the final component's extension including the
dot, empty when the last dot is leading or trailing. -/
def pathSuffix (s : String) : String :=
  let name := lastComponent s.data
  match rfindIdx '.' name with
  | none => ""
  | some i => if 0 < i ∧ i < name.length - 1 then String.mk (name.drop i) else ""

/-- The multipart file as the handler sees it: client filename, declared
content type, and the fully buffered content bytes. -/
structure UploadIn where
  filename : String
  content_type : String
  content : List UInt8
deriving Repr, DecidableEq

/-- Response body of `POST /api/upload` (`FileUploadResponse`). -/
structure FileUploadOut where
  id : String
  filename : String
  size : Nat
  content_type : String
  url : String
  uploaded_at : Nat
deriving Repr, DecidableEq

/-- Handler of `POST /api/upload` (`upload_file` in `main.py`).  `verify_token`
has already run as a dependency and produced `email`; `file_id` is the
`uuid.uuid4()` drawn for this request. -/
def upload_file (cfg : Config) (now : Nat) (file_id : String) (email : String)
    (file : UploadIn) (st : AppState) :
    AppState × Except HTTPException FileUploadOut :=
  if !type_ok file.content_type file.filename then
    (st, .error ⟨400, "File type not allowed. Please upload structured data files (CSV, JSON, TXT, Excel, XML)"⟩)
  else if file.content.length > MAX_UPLOAD_BYTES then
    (st, .error ⟨400, "File size exceeds 100MB limit"⟩)
  else
    let file_extension := pathSuffix file.filename
    let filename := file_id ++ file_extension
    let file_path := cfg.upload_dir ++ "/" ++ filename
    let st1 := { st with disk := st.disk ++ [DiskFile.mk file_path file.content] }
    let row : UploadedFileRow :=
      { id := file_id, filename := filename, original_filename := file.filename,
        file_size := file.content.length, content_type := file.content_type,
        file_path := file_path, user_email := email, uploaded_at := now,
        status := "success" }
    let st2 := { st1 with uploaded_files := st1.uploaded_files ++ [row] }
    let st3 := log_activity st2 now email "File uploaded" "success"
      (some ("Uploaded " ++ file.filename ++ " (" ++ toString file.content.length ++ " bytes)"))
    (st3, .ok { id := file_id, filename := file.filename, size := file.content.length,
                content_type := file.content_type, url := "/api/files/" ++ file_id,
                uploaded_at := now })

/-! Concrete fixtures: a deployment configuration and a small user table
exercising every login state (active, first-login, deactivated, admin). -/

def demoCfg : Config := { secret := "k", expire_minutes := 30, upload_dir := "uploads" }

def alice : User :=
  { email := "alice@example.com", name := "Alice", password_hash := hash_password "alicepw",
    role := "user", is_active := true, is_first_login := false,
    storage_account := "sa1", container := "c1", last_login := some 10 }

def bob : User :=
  { email := "bob@example.com", name := "Bob", password_hash := hash_password "temp123",
    role := "user", is_active := true, is_first_login := true,
    storage_account := "sa1", container := "c1", last_login := none }

def carol : User :=
  { email := "carol@example.com", name := "Carol", password_hash := hash_password "carolpw",
    role := "user", is_active := false, is_first_login := false,
    storage_account := "sa1", container := "c1", last_login := some 3 }

def adminUser : User :=
  { email := "admin@example.com", name := "Admin", password_hash := hash_password "adminpw",
    role := "admin", is_active := true, is_first_login := false,
    storage_account := "sa1", container := "c1", last_login := some 1 }

def demoSt : AppState :=
  { users := [alice, bob, carol, adminUser],
    uploaded_files := [], activity_logs := [], disk := [] }

/-- A payload one byte over the 100 MiB ceiling. -/
def bigContent : List UInt8 := List.replicate (MAX_UPLOAD_BYTES + 1) 0

/-- An oversize upload with an allowed extension and content type. -/
def bigUpload : UploadIn := ⟨"big.csv", "text/csv", bigContent⟩

/-- Replacing the first matching user is found again by a lookup on the same
email, provided the replacement keeps the email. -/
theorem findUser_updateFirst (users : List User) (e : String) (f : User → User)
    (hf : ∀ v, (f v).email = v.email) (u : User) (h : findUser users e = some u) :
    findUser (updateFirst users e f) e = some (f u) := by
  induction users with
  | nil => simp [findUser] at h
  | cons v rest ih =>
    by_cases hv : (v.email == e) = true
    · rw [findUser, if_pos hv] at h
      injection h with h'
      rw [updateFirst, if_pos hv, findUser, if_pos (by rw [hf v]; exact hv), h']
    · rw [findUser, if_neg hv] at h
      rw [updateFirst, if_neg hv, findUser, if_neg hv]
      exact ih h

/-- C10: a token that is correctly signed with the configured secret and
unexpired, but whose claim set contains no "sub" claim, is rejected by
`verify_token` with status 401 rather than yielding an identity. -/
theorem verify_token_missing_sub_unauthorized (cfg : Config) (now exp : Nat)
    (hexp : now ≤ exp) :
    verify_token cfg now (.signed ⟨none, exp⟩ cfg.secret) =
      .error ⟨401, "Invalid token"⟩ := by
  simp [verify_token, jwtDecode, hexp]

theorem verify_token_missing_sub_unauthorized_witness :
    (0 : Nat) ≤ 30 ∧
    verify_token demoCfg 0 (.signed ⟨none, 30⟩ demoCfg.secret) =
      .error ⟨401, "Invalid token"⟩ :=
  ⟨by decide, verify_token_missing_sub_unauthorized demoCfg 0 30 (by decide)⟩

/-- C9: on a valid unexpired token for subject `e`, `verify_admin_token`
re-reads the role from the users table at call time: it succeeds exactly when
a user with email `e` currently exists with role admin, and fails with 403
Forbidden otherwise (in particular after a role downgrade). -/
theorem verify_admin_role_from_store (cfg : Config) (now exp : Nat) (e : String)
    (st : AppState) (hexp : now ≤ exp) :
    (verify_admin_token cfg now (.signed ⟨some e, exp⟩ cfg.secret) st = .ok e
       ↔ (findUser st.users e).map User.role = some "admin")
  ∧ ((findUser st.users e).map User.role ≠ some "admin" →
       verify_admin_token cfg now (.signed ⟨some e, exp⟩ cfg.secret) st =
         .error ⟨403, "Admin access required"⟩) := by
  have hvt : verify_token cfg now (.signed ⟨some e, exp⟩ cfg.secret) = .ok e := by
    simp [verify_token, jwtDecode, hexp]
  unfold verify_admin_token
  rw [hvt]
  cases hfu : findUser st.users e with
  | none => simp [hfu]
  | some u =>
    by_cases hr : u.role = "admin"
    · simp [hfu, hr]
    · simp [hfu, hr]

theorem verify_admin_role_from_store_witness :
    (0 : Nat) ≤ 30 ∧
    verify_admin_token demoCfg 0 (.signed ⟨some "admin@example.com", 30⟩ demoCfg.secret)
      demoSt = .ok "admin@example.com" ∧
    verify_admin_token demoCfg 0 (.signed ⟨some "alice@example.com", 30⟩ demoCfg.secret)
      demoSt = .error ⟨403, "Admin access required"⟩ :=
  ⟨by decide,
   (verify_admin_role_from_store demoCfg 0 30 "admin@example.com" demoSt
      (by decide)).1.mpr (by decide),
   (verify_admin_role_from_store demoCfg 0 30 "alice@example.com" demoSt
      (by decide)).2 (by decide)⟩

/-- C4: for an active user still in first-login state, a login with the
correct temporary password returns the marker response
(`needs_password_setup = true`, no bearer token) and leaves the state
untouched: `last_login` is unchanged and no audit entry is appended. -/
theorem first_login_marker_no_token (cfg : Config) (now : Nat) (st : AppState)
    (e p : String) (u : User) (hfind : findUser st.users e = some u)
    (hact : u.is_active = true) (hfirst : u.is_first_login = true)
    (hpw : verify_password p u.password_hash = true) :
    login cfg now ⟨e, p⟩ st =
      (st, .ok { access_token := none, token_type := "bearer",
                 user := ⟨u.email, u.name, u.role, true⟩ }) := by
  simp only [login]
  rw [hfind]
  simp [hact, hfirst, hpw]

theorem first_login_marker_no_token_witness :
    findUser demoSt.users "bob@example.com" = some bob ∧
    bob.is_active = true ∧ bob.is_first_login = true ∧
    verify_password "temp123" bob.password_hash = true ∧
    login demoCfg 42 ⟨"bob@example.com", "temp123"⟩ demoSt =
      (demoSt, .ok { access_token := none, token_type := "bearer",
                     user := ⟨bob.email, bob.name, bob.role, true⟩ }) :=
  ⟨by decide, by decide, by decide, by decide,
   first_login_marker_no_token demoCfg 42 demoSt "bob@example.com" "temp123" bob
     (by decide) (by decide) (by decide) (by decide)⟩

/-- C5: for an active user past first login, a login with the correct
password updates that user's `last_login` to now (a value ≥ the previous one,
time being monotone), appends exactly one audit entry with outcome success,
and returns a bearer token signed with the configured secret whose subject is
the user's email and whose expiry is the fixed window after now. -/
theorem login_success_updates_state (cfg : Config) (now : Nat) (st : AppState)
    (e p : String) (u : User) (hfind : findUser st.users e = some u)
    (hact : u.is_active = true) (hfirst : u.is_first_login = false)
    (hpw : verify_password p u.password_hash = true)
    (hmono : u.last_login.getD 0 ≤ now) :
    login cfg now ⟨e, p⟩ st =
      ({ st with
           users := updateFirst st.users e (fun v => { v with last_login := some now }),
           activity_logs := st.activity_logs ++
             [⟨u.email, "Login successful", none, "success", now⟩] },
       .ok { access_token := some (.signed ⟨some u.email, now + cfg.expire_minutes⟩ cfg.secret),
             token_type := "bearer", user := ⟨u.email, u.name, u.role, false⟩ })
  ∧ findUser (updateFirst st.users e (fun v => { v with last_login := some now })) e
      = some { u with last_login := some now }
  ∧ u.last_login.getD 0 ≤ now := by
  refine ⟨?_, findUser_updateFirst st.users e
    (fun v => { v with last_login := some now }) (fun v => rfl) u hfind, hmono⟩
  simp only [login]
  rw [hfind]
  simp [hact, hfirst, hpw, log_activity, create_access_token]

theorem login_success_updates_state_witness :
    findUser demoSt.users "alice@example.com" = some alice ∧
    alice.is_active = true ∧ alice.is_first_login = false ∧
    verify_password "alicepw" alice.password_hash = true ∧
    alice.last_login.getD 0 ≤ 42 ∧
    (login demoCfg 42 ⟨"alice@example.com", "alicepw"⟩ demoSt =
      ({ demoSt with
           users := updateFirst demoSt.users "alice@example.com"
             (fun v => { v with last_login := some 42 }),
           activity_logs := demoSt.activity_logs ++
             [⟨alice.email, "Login successful", none, "success", 42⟩] },
       .ok { access_token := some (.signed ⟨some alice.email, 42 + demoCfg.expire_minutes⟩
               demoCfg.secret),
             token_type := "bearer",
             user := ⟨alice.email, alice.name, alice.role, false⟩ })
     ∧ findUser (updateFirst demoSt.users "alice@example.com"
          (fun v => { v with last_login := some 42 })) "alice@example.com"
         = some { alice with last_login := some 42 }
     ∧ alice.last_login.getD 0 ≤ 42) :=
  ⟨by decide, by decide, by decide, by decide, by decide,
   login_success_updates_state demoCfg 42 demoSt "alice@example.com" "alicepw" alice
     (by decide) (by decide) (by decide) (by decide) (by decide)⟩

/-- C6: the operation `set_password` fails with 404 and changes nothing when the email is
unknown; otherwise, with no old-password check, it overwrites the stored hash
with the hash of the new password, forces `is_first_login` to false, sets
`last_login` to now, appends exactly one info audit entry, and returns a
bearer token for the user. -/
theorem set_password_contract (cfg : Config) (now : Nat) (st : AppState)
    (e np : String) :
    (findUser st.users e = none →
       set_password cfg now ⟨e, np⟩ st = (st, .error ⟨404, "User not found"⟩))
  ∧ (∀ u, findUser st.users e = some u →
       set_password cfg now ⟨e, np⟩ st =
         ({ st with
              users := updateFirst st.users e (fun v =>
                { v with password_hash := hash_password np,
                         is_first_login := false, last_login := some now }),
              activity_logs := st.activity_logs ++
                [⟨u.email, "Password changed", none, "info", now⟩] },
          .ok { access_token := some (.signed ⟨some u.email, now + cfg.expire_minutes⟩
                  cfg.secret),
                token_type := "bearer", user := ⟨u.email, u.name, u.role, false⟩ })
     ∧ findUser (updateFirst st.users e (fun v =>
          { v with password_hash := hash_password np, is_first_login := false,
                   last_login := some now })) e =
         some { u with password_hash := hash_password np, is_first_login := false,
                       last_login := some now }) := by
  constructor
  · intro h
    simp only [set_password]
    rw [h]
  · intro u h
    refine ⟨?_, findUser_updateFirst st.users e
      (fun v => { v with password_hash := hash_password np, is_first_login := false,
                         last_login := some now }) (fun v => rfl) u h⟩
    simp only [set_password]
    rw [h]
    simp [log_activity, create_access_token]

theorem set_password_contract_witness :
    (findUser demoSt.users "ghost@example.com" = none ∧
     set_password demoCfg 50 ⟨"ghost@example.com", "np"⟩ demoSt =
       (demoSt, .error ⟨404, "User not found"⟩)) ∧
    (findUser demoSt.users "bob@example.com" = some bob ∧
     (set_password demoCfg 50 ⟨"bob@example.com", "np"⟩ demoSt =
        ({ demoSt with
             users := updateFirst demoSt.users "bob@example.com" (fun v =>
               { v with password_hash := hash_password "np",
                        is_first_login := false, last_login := some 50 }),
             activity_logs := demoSt.activity_logs ++
               [⟨bob.email, "Password changed", none, "info", 50⟩] },
         .ok { access_token := some (.signed ⟨some bob.email, 50 + demoCfg.expire_minutes⟩
                 demoCfg.secret),
               token_type := "bearer", user := ⟨bob.email, bob.name, bob.role, false⟩ })
      ∧ findUser (updateFirst demoSt.users "bob@example.com" (fun v =>
           { v with password_hash := hash_password "np", is_first_login := false,
                    last_login := some 50 })) "bob@example.com" =
          some { bob with password_hash := hash_password "np", is_first_login := false,
                          last_login := some 50 })) :=
  ⟨⟨by decide, (set_password_contract demoCfg 50 demoSt "ghost@example.com" "np").1 (by decide)⟩,
   ⟨by decide, (set_password_contract demoCfg 50 demoSt "bob@example.com" "np").2 bob (by decide)⟩⟩

/-- C1 counterexample: the operation `set_password` performs no active-flag check, so the
deactivated user carol obtains a bearer token from it; the claim that no core
operation (Login or SetPassword) ever returns a token to a deactivated user
is false on the code. -/
theorem set_password_deactivated_token_cex :
    carol.is_active = false ∧
    (set_password demoCfg 50 ⟨"carol@example.com", "np"⟩ demoSt).2 =
      .ok { access_token := some (.signed ⟨some "carol@example.com", 80⟩ "k"),
            token_type := "bearer",
            user := ⟨"carol@example.com", "Carol", "user", false⟩ } := by decide

/-- C1 amended: a deactivated user can never obtain a token from Login, which
fails 401 Unauthorized (logging the inactive-account error); `set_password`,
however, checks only that the email exists and issues a bearer token even to
a deactivated user. -/
theorem deactivated_token_amended (cfg : Config) (now : Nat) (st : AppState)
    (e p np : String) (u : User) (hfind : findUser st.users e = some u)
    (hinact : u.is_active = false) :
    login cfg now ⟨e, p⟩ st =
      ({ st with activity_logs := st.activity_logs ++
           [⟨u.email, "Login failed", some "Account is inactive", "error", now⟩] },
       .error ⟨401, "Account is inactive. Please contact an administrator."⟩)
  ∧ (set_password cfg now ⟨e, np⟩ st).2 =
      .ok { access_token := some (.signed ⟨some u.email, now + cfg.expire_minutes⟩ cfg.secret),
            token_type := "bearer", user := ⟨u.email, u.name, u.role, false⟩ } := by
  constructor
  · simp only [login]
    rw [hfind]
    simp [hinact, log_activity]
  · simp only [set_password]
    rw [hfind]
    simp [create_access_token]

theorem deactivated_token_amended_witness :
    findUser demoSt.users "carol@example.com" = some carol ∧
    carol.is_active = false ∧
    (login demoCfg 7 ⟨"carol@example.com", "carolpw"⟩ demoSt =
      ({ demoSt with activity_logs := demoSt.activity_logs ++
           [⟨carol.email, "Login failed", some "Account is inactive", "error", 7⟩] },
       .error ⟨401, "Account is inactive. Please contact an administrator."⟩)
     ∧ (set_password demoCfg 7 ⟨"carol@example.com", "np"⟩ demoSt).2 =
        .ok { access_token := some (.signed ⟨some carol.email, 7 + demoCfg.expire_minutes⟩
                demoCfg.secret),
              token_type := "bearer",
              user := ⟨carol.email, carol.name, carol.role, false⟩ }) :=
  ⟨by decide, by decide,
   deactivated_token_amended demoCfg 7 demoSt "carol@example.com" "carolpw" "np" carol
     (by decide) (by decide)⟩

/-- C2 counterexample: a login failure caused by an unknown email appends no
audit entry at all, refuting the claim that every failing Login appends
exactly one error audit entry. -/
theorem login_failure_unaudited_cex :
    findUser demoSt.users "ghost@example.com" = none ∧
    login demoCfg 7 ⟨"ghost@example.com", "pw"⟩ demoSt =
      (demoSt, .error ⟨401, "Invalid email or password"⟩) ∧
    demoSt.activity_logs = [] := by decide

/-- C2 amended: a failing Login appends exactly one audit entry with outcome
error when the account is deactivated or when the password of a user past
first login fails to verify; failures due to an unknown email or to a wrong
temporary password during first login append no audit entry. -/
theorem login_failure_audit_amended (cfg : Config) (now : Nat) (st : AppState)
    (e p : String) :
    (findUser st.users e = none →
       login cfg now ⟨e, p⟩ st = (st, .error ⟨401, "Invalid email or password"⟩))
  ∧ (∀ u, findUser st.users e = some u → u.is_active = false →
       login cfg now ⟨e, p⟩ st =
         ({ st with activity_logs := st.activity_logs ++
              [⟨u.email, "Login failed", some "Account is inactive", "error", now⟩] },
          .error ⟨401, "Account is inactive. Please contact an administrator."⟩))
  ∧ (∀ u, findUser st.users e = some u → u.is_active = true →
       u.is_first_login = true → verify_password p u.password_hash = false →
       login cfg now ⟨e, p⟩ st = (st, .error ⟨401, "Invalid email or password"⟩))
  ∧ (∀ u, findUser st.users e = some u → u.is_active = true →
       u.is_first_login = false → verify_password p u.password_hash = false →
       login cfg now ⟨e, p⟩ st =
         ({ st with activity_logs := st.activity_logs ++
              [⟨u.email, "Login failed", some "Invalid password", "error", now⟩] },
          .error ⟨401, "Invalid email or password"⟩)) := by
  refine ⟨?_, ?_, ?_, ?_⟩
  · intro h
    simp only [login]
    rw [h]
  · intro u h hinact
    simp only [login]
    rw [h]
    simp [hinact, log_activity]
  · intro u h hact hfirst hpw
    simp only [login]
    rw [h]
    simp [hact, hfirst, hpw]
  · intro u h hact hfirst hpw
    simp only [login]
    rw [h]
    simp [hact, hfirst, hpw, log_activity]

theorem login_failure_audit_amended_witness :
    login demoCfg 7 ⟨"ghost@example.com", "pw"⟩ demoSt =
      (demoSt, .error ⟨401, "Invalid email or password"⟩)
  ∧ login demoCfg 7 ⟨"carol@example.com", "carolpw"⟩ demoSt =
      ({ demoSt with activity_logs := demoSt.activity_logs ++
           [⟨carol.email, "Login failed", some "Account is inactive", "error", 7⟩] },
       .error ⟨401, "Account is inactive. Please contact an administrator."⟩)
  ∧ login demoCfg 7 ⟨"bob@example.com", "wrong"⟩ demoSt =
      (demoSt, .error ⟨401, "Invalid email or password"⟩)
  ∧ login demoCfg 7 ⟨"alice@example.com", "wrong"⟩ demoSt =
      ({ demoSt with activity_logs := demoSt.activity_logs ++
           [⟨alice.email, "Login failed", some "Invalid password", "error", 7⟩] },
       .error ⟨401, "Invalid email or password"⟩) :=
  ⟨(login_failure_audit_amended demoCfg 7 demoSt "ghost@example.com" "pw").1 (by decide),
   (login_failure_audit_amended demoCfg 7 demoSt "carol@example.com" "carolpw").2.1
     carol (by decide) (by decide),
   (login_failure_audit_amended demoCfg 7 demoSt "bob@example.com" "wrong").2.2.1
     bob (by decide) (by decide) (by decide) (by decide),
   (login_failure_audit_amended demoCfg 7 demoSt "alice@example.com" "wrong").2.2.2
     alice (by decide) (by decide) (by decide) (by decide)⟩

theorem bigContent_length : bigContent.length = MAX_UPLOAD_BYTES + 1 := by
  simp only [bigContent, List.length_replicate]

theorem bigUpload_oversize : bigUpload.content.length > MAX_UPLOAD_BYTES := by
  have h : bigUpload.content.length = MAX_UPLOAD_BYTES + 1 := bigContent_length
  rw [h]
  exact Nat.lt_succ_self _

/-- C3 counterexample: an upload of 100 MiB + 1 bytes with an allowed
extension and content type is rejected, but with HTTP status 400, not the 413
the claim states. -/
theorem upload_oversize_status_cex :
    type_ok bigUpload.content_type bigUpload.filename = true ∧
    bigUpload.content.length = MAX_UPLOAD_BYTES + 1 ∧
    (upload_file demoCfg 5 "id1" "alice@example.com" bigUpload demoSt).2 =
      .error ⟨400, "File size exceeds 100MB limit"⟩ ∧
    ∀ d, (upload_file demoCfg 5 "id1" "alice@example.com" bigUpload demoSt).2 ≠
      .error ⟨413, d⟩ := by
  have htype : type_ok bigUpload.content_type bigUpload.filename = true := by decide
  have hlen : bigUpload.content.length = MAX_UPLOAD_BYTES + 1 := bigContent_length
  have hres : (upload_file demoCfg 5 "id1" "alice@example.com" bigUpload demoSt).2 =
      .error ⟨400, "File size exceeds 100MB limit"⟩ := by
    simp only [upload_file]
    rw [htype]
    simp [hlen, MAX_UPLOAD_BYTES]
  refine ⟨htype, hlen, hres, fun d => ?_⟩
  rw [hres]
  intro hcontra
  injection hcontra with h'
  injection h' with h1 h2
  exact absurd h1 (by decide)

/-- C3 amended: an upload whose content exceeds the 100 MiB ceiling, with the
type check passing, fails before any write with detail "File size exceeds
100MB limit" and HTTP status 400 (the code does not use 413). -/
theorem upload_oversize_rejected (cfg : Config) (now : Nat) (fid email : String)
    (file : UploadIn) (st : AppState)
    (htype : type_ok file.content_type file.filename = true)
    (hsize : file.content.length > MAX_UPLOAD_BYTES) :
    upload_file cfg now fid email file st =
      (st, .error ⟨400, "File size exceeds 100MB limit"⟩) := by
  simp only [upload_file]
  rw [htype]
  simp [hsize]

theorem upload_oversize_rejected_witness :
    type_ok bigUpload.content_type bigUpload.filename = true ∧
    bigUpload.content.length > MAX_UPLOAD_BYTES ∧
    upload_file demoCfg 5 "id2" "alice@example.com" bigUpload demoSt =
      (demoSt, .error ⟨400, "File size exceeds 100MB limit"⟩) :=
  ⟨by decide, bigUpload_oversize,
   upload_oversize_rejected demoCfg 5 "id2" "alice@example.com" bigUpload demoSt
     (by decide) bigUpload_oversize⟩

/-- C7: the upload type check is a logical OR of the two signals: the request
is rejected with the UnsupportedType error exactly when the declared content
type is outside the allow-list AND the lowercased filename ends in none of
the allowed extensions; either signal alone admits the upload. -/
theorem upload_type_check_or (cfg : Config) (now : Nat) (fid email : String)
    (file : UploadIn) (st : AppState) :
    (upload_file cfg now fid email file st).2 =
        .error ⟨400, "File type not allowed. Please upload structured data files (CSV, JSON, TXT, Excel, XML)"⟩
      ↔ (allowed_types.contains file.content_type = false ∧
         extension_ok file.filename = false) := by
  have hOr : type_ok file.content_type file.filename = false ↔
      (allowed_types.contains file.content_type = false ∧
       extension_ok file.filename = false) := by
    rw [type_ok]
    cases allowed_types.contains file.content_type <;>
      cases extension_ok file.filename <;> simp
  by_cases h : type_ok file.content_type file.filename = true
  · by_cases hs : file.content.length > MAX_UPLOAD_BYTES
    · have hval : (upload_file cfg now fid email file st).2 =
          .error ⟨400, "File size exceeds 100MB limit"⟩ := by
        simp only [upload_file]
        rw [h]
        simp [hs]
      rw [hval]
      constructor
      · intro heq
        injection heq with h'
        injection h' with h1 h2
        exact absurd h2 (by decide)
      · intro hrhs
        have hf := hOr.mpr hrhs
        rw [hf] at h
        exact absurd h (by decide)
    · have hval : ∃ out, (upload_file cfg now fid email file st).2 = .ok out := by
        simp only [upload_file]
        rw [h]
        simp [hs]
      obtain ⟨out, hval⟩ := hval
      rw [hval]
      constructor
      · intro heq
        exact Except.noConfusion heq
      · intro hrhs
        have hf := hOr.mpr hrhs
        rw [hf] at h
        exact absurd h (by decide)
  · have h0 : type_ok file.content_type file.filename = false := by
      revert h
      cases type_ok file.content_type file.filename <;> simp
    have hval : (upload_file cfg now fid email file st).2 =
        .error ⟨400, "File type not allowed. Please upload structured data files (CSV, JSON, TXT, Excel, XML)"⟩ := by
      simp only [upload_file]
      rw [h0]
      simp
    rw [hval]
    exact iff_of_true rfl (hOr.mp h0)

/-- C8: an upload rejected by the type check or the size check changes no
state at all: the upload directory, the uploaded_files table and the
activity_logs table are untouched, and the call returns an error. -/
theorem upload_reject_no_state_change (cfg : Config) (now : Nat)
    (fid email : String) (file : UploadIn) (st : AppState)
    (hrej : type_ok file.content_type file.filename = false ∨
            file.content.length > MAX_UPLOAD_BYTES) :
    (upload_file cfg now fid email file st).1 = st
  ∧ (upload_file cfg now fid email file st).1.disk = st.disk
  ∧ (upload_file cfg now fid email file st).1.uploaded_files = st.uploaded_files
  ∧ (upload_file cfg now fid email file st).1.activity_logs = st.activity_logs
  ∧ ∃ err, (upload_file cfg now fid email file st).2 = .error err := by
  have key : (upload_file cfg now fid email file st).1 = st ∧
      ∃ err, (upload_file cfg now fid email file st).2 = .error err := by
    rcases hrej with h | h
    · simp only [upload_file]
      rw [h]
      simp
    · by_cases ht : type_ok file.content_type file.filename = true
      · simp only [upload_file]
        rw [ht]
        simp [h]
      · have h0 : type_ok file.content_type file.filename = false := by
          revert ht
          cases type_ok file.content_type file.filename <;> simp
        simp only [upload_file]
        rw [h0]
        simp
  exact ⟨key.1, by rw [key.1], by rw [key.1], by rw [key.1], key.2⟩

theorem upload_reject_no_state_change_witness :
    (type_ok "application/pdf" "evil.exe" = false ∨
      ([7] : List UInt8).length > MAX_UPLOAD_BYTES) ∧
    (upload_file demoCfg 5 "id3" "alice@example.com"
       ⟨"evil.exe", "application/pdf", [7]⟩ demoSt).1 = demoSt ∧
    ∃ err, (upload_file demoCfg 5 "id3" "alice@example.com"
       ⟨"evil.exe", "application/pdf", [7]⟩ demoSt).2 = .error err :=
  ⟨Or.inl (by decide),
   (upload_reject_no_state_change demoCfg 5 "id3" "alice@example.com"
      ⟨"evil.exe", "application/pdf", [7]⟩ demoSt (Or.inl (by decide))).1,
   (upload_reject_no_state_change demoCfg 5 "id3" "alice@example.com"
      ⟨"evil.exe", "application/pdf", [7]⟩ demoSt (Or.inl (by decide))).2.2.2.2⟩

end DemoUppy
